import Mathlib

set_option maxRecDepth 8000

/-!
Shallow embedding of the arkanoid game core
(SDL2_Example/android-project/app/jni/src/arkanoid.cpp).

Float values of the source are embedded as exact rationals; C++ ints as
Lean integers.  Only the rendering/input layer is omitted: geometry,
collision resolution, the refresh pass of the entity store and the restart
sequence are translated function by function.
-/

namespace Arkanoid

/-- Vector2f from the source: a 2D vector of (float) coordinates. -/
structure Vector2f where
  x : ℚ
  y : ℚ
deriving DecidableEq

/-- Width of gScreenRect, the fixed world rectangle (800x600). -/
def gScreenW : ℚ := 800

/-- Height of gScreenRect, the fixed world rectangle (800x600). -/
def gScreenH : ℚ := 600

/-- The four edge extents a shape exposes (left(), right(), top(),
bottom()); the isIntersecting template only reads these. -/
structure Extent where
  left : ℚ
  right : ℚ
  top : ℚ
  bottom : ℚ
deriving DecidableEq

/-- The isIntersecting template of the source: axis-aligned extents
overlap on both axes, boundaries inclusive. -/
def isIntersecting (mA mB : Extent) : Bool :=
  decide (mA.right ≥ mB.left) && decide (mA.left ≤ mB.right) &&
  decide (mA.bottom ≥ mB.top) && decide (mA.top ≤ mB.bottom)

/-- A shape value: the two concrete shapes of the source, Rectangle
(center position plus width/height) and Circle (center plus radius). -/
inductive ShapeVal where
  | rect (x y w h : ℚ)
  | circ (x y radius : ℚ)
deriving DecidableEq

/-- Rectangle::left / Circle::left. -/
def ShapeVal.left : ShapeVal → ℚ
  | .rect x _ w _ => x - w / 2
  | .circ x _ r => x - r

/-- Rectangle::right / Circle::right. -/
def ShapeVal.right : ShapeVal → ℚ
  | .rect x _ w _ => x + w / 2
  | .circ x _ r => x + r

/-- Rectangle::top / Circle::top. -/
def ShapeVal.top : ShapeVal → ℚ
  | .rect _ y _ h => y - h / 2
  | .circ _ y r => y - r

/-- Rectangle::bottom / Circle::bottom. -/
def ShapeVal.bottom : ShapeVal → ℚ
  | .rect _ y _ h => y + h / 2
  | .circ _ y r => y + r

/-- The edge extents of a shape, as read by the isIntersecting template. -/
def ShapeVal.extent (s : ShapeVal) : Extent :=
  ⟨s.left, s.right, s.top, s.bottom⟩

/-- Ball: Entity + Circle with a velocity vector.  Fields x, y, radius
come from Circle (originX/originY only offset drawing and are kept for
completeness), destroyed from Entity. -/
structure Ball where
  x : ℚ
  y : ℚ
  originX : ℚ
  originY : ℚ
  radius : ℚ
  velocity : Vector2f
  destroyed : Bool
deriving DecidableEq

/-- Ball::defRadius. -/
def Ball.defRadius : ℚ := 10

/-- Ball::defVelocity. -/
def Ball.defVelocity : ℚ := 8

/-- Circle::left for the ball. -/
def Ball.left (b : Ball) : ℚ := b.x - b.radius

/-- Circle::right for the ball. -/
def Ball.right (b : Ball) : ℚ := b.x + b.radius

/-- Circle::top for the ball. -/
def Ball.top (b : Ball) : ℚ := b.y - b.radius

/-- Circle::bottom for the ball. -/
def Ball.bottom (b : Ball) : ℚ := b.y + b.radius

/-- The edge extents of the ball. -/
def Ball.extent (b : Ball) : Extent := ⟨b.left, b.right, b.top, b.bottom⟩

/-- The Ball(mX, mY) constructor: position (mX, mY), radius and origin
defRadius, velocity (-defVelocity, -defVelocity), destroyed false. -/
def mkBall (mX mY : ℚ) : Ball :=
  { x := mX, y := mY, originX := Ball.defRadius, originY := Ball.defRadius,
    radius := Ball.defRadius,
    velocity := ⟨-Ball.defVelocity, -Ball.defVelocity⟩, destroyed := false }

/-- Shape::move for the ball: translate position by a velocity vector. -/
def Ball.move (b : Ball) (vel : Vector2f) : Ball :=
  { b with x := b.x + vel.x, y := b.y + vel.y }

/-- Ball::solveBoundCollisions: bounce off the left/right/top world
edges by setting the velocity component to the fixed speed; past the
bottom edge (strictly below it) mark the ball destroyed. -/
def Ball.solveBoundCollisions (b : Ball) : Ball :=
  let b1 :=
    if b.left < 0 then { b with velocity := { b.velocity with x := Ball.defVelocity } }
    else if b.right > gScreenW then { b with velocity := { b.velocity with x := -Ball.defVelocity } }
    else b
  if b1.top < 0 then { b1 with velocity := { b1.velocity with y := Ball.defVelocity } }
  else if b1.bottom > gScreenH then { b1 with destroyed := true }
  else b1

/-- Ball::update: move by the current velocity, then resolve against the
world bounds. -/
def Ball.update (b : Ball) : Ball :=
  (b.move b.velocity).solveBoundCollisions

/-- Paddle: Entity + Rectangle with a velocity vector. -/
structure Paddle where
  x : ℚ
  y : ℚ
  originX : ℚ
  originY : ℚ
  w : ℚ
  h : ℚ
  velocity : Vector2f
  destroyed : Bool
deriving DecidableEq

/-- Paddle::defWidth. -/
def Paddle.defWidth : ℚ := 60

/-- Paddle::defHeight. -/
def Paddle.defHeight : ℚ := 20

/-- Rectangle::left for the paddle. -/
def Paddle.left (p : Paddle) : ℚ := p.x - p.w / 2

/-- Rectangle::right for the paddle. -/
def Paddle.right (p : Paddle) : ℚ := p.x + p.w / 2

/-- Rectangle::top for the paddle. -/
def Paddle.top (p : Paddle) : ℚ := p.y - p.h / 2

/-- Rectangle::bottom for the paddle. -/
def Paddle.bottom (p : Paddle) : ℚ := p.y + p.h / 2

/-- The edge extents of the paddle. -/
def Paddle.extent (p : Paddle) : Extent := ⟨p.left, p.right, p.top, p.bottom⟩

/-- The Paddle(mX, mY) constructor: position (mX, mY), size
(defWidth, defHeight), origin at half size, velocity (0, 0). -/
def mkPaddle (mX mY : ℚ) : Paddle :=
  { x := mX, y := mY, originX := Paddle.defWidth / 2, originY := Paddle.defHeight / 2,
    w := Paddle.defWidth, h := Paddle.defHeight,
    velocity := ⟨0, 0⟩, destroyed := false }

/-- Brick: Entity + Rectangle with a required-hits counter (C++ int). -/
structure Brick where
  x : ℚ
  y : ℚ
  originX : ℚ
  originY : ℚ
  w : ℚ
  h : ℚ
  requiredHits : ℤ
  destroyed : Bool
deriving DecidableEq

/-- Brick::defWidth. -/
def Brick.defWidth : ℚ := 60

/-- Brick::defHeight. -/
def Brick.defHeight : ℚ := 20

/-- Rectangle::left for the brick. -/
def Brick.left (k : Brick) : ℚ := k.x - k.w / 2

/-- Rectangle::right for the brick. -/
def Brick.right (k : Brick) : ℚ := k.x + k.w / 2

/-- Rectangle::top for the brick. -/
def Brick.top (k : Brick) : ℚ := k.y - k.h / 2

/-- Rectangle::bottom for the brick. -/
def Brick.bottom (k : Brick) : ℚ := k.y + k.h / 2

/-- The edge extents of the brick. -/
def Brick.extent (k : Brick) : Extent := ⟨k.left, k.right, k.top, k.bottom⟩

/-- The Brick(mX, mY) constructor: position (mX, mY), size
(defWidth, defHeight), origin at half size, requiredHits 1 by default. -/
def mkBrick (mX mY : ℚ) : Brick :=
  { x := mX, y := mY, originX := Brick.defWidth / 2, originY := Brick.defHeight / 2,
    w := Brick.defWidth, h := Brick.defHeight,
    requiredHits := 1, destroyed := false }

/-- solvePaddleBallCollision: early return unless intersecting; on
intersection set the vertical velocity of the ball to -defVelocity and the
horizontal velocity to -defVelocity when the ball center is strictly
left of the paddle center, +defVelocity otherwise. -/
def solvePaddleBallCollision (mPaddle : Paddle) (mBall : Ball) : Ball :=
  if isIntersecting mPaddle.extent mBall.extent then
    { mBall with velocity :=
        ⟨if mBall.x < mPaddle.x then -Ball.defVelocity else Ball.defVelocity,
         -Ball.defVelocity⟩ }
  else mBall

/-- Local overlapLeft of solveBrickBallCollision: mBall.right() - mBrick.left().
(The edge reads happen after the hit-count update in the source; the
update does not touch the geometry fields, so the values agree.) -/
def overlapLeft (mBrick : Brick) (mBall : Ball) : ℚ := mBall.right - mBrick.left

/-- Local overlapRight of solveBrickBallCollision: mBrick.right() - mBall.left(). -/
def overlapRight (mBrick : Brick) (mBall : Ball) : ℚ := mBrick.right - mBall.left

/-- Local overlapTop of solveBrickBallCollision: mBall.bottom() - mBrick.top(). -/
def overlapTop (mBrick : Brick) (mBall : Ball) : ℚ := mBall.bottom - mBrick.top

/-- Local overlapBottom of solveBrickBallCollision: mBrick.bottom() - mBall.top(). -/
def overlapBottom (mBrick : Brick) (mBall : Ball) : ℚ := mBrick.bottom - mBall.top

/-- Local ballFromLeft: the left overlap is smaller in absolute value
than the right overlap. -/
def ballFromLeft (mBrick : Brick) (mBall : Ball) : Bool :=
  decide (|overlapLeft mBrick mBall| < |overlapRight mBrick mBall|)

/-- Local ballFromTop: the top overlap is smaller in absolute value
than the bottom overlap. -/
def ballFromTop (mBrick : Brick) (mBall : Ball) : Bool :=
  decide (|overlapTop mBrick mBall| < |overlapBottom mBrick mBall|)

/-- Local minOverlapX: the horizontal overlap of the side the ball came
from. -/
def minOverlapX (mBrick : Brick) (mBall : Ball) : ℚ :=
  if ballFromLeft mBrick mBall then overlapLeft mBrick mBall else overlapRight mBrick mBall

/-- Local minOverlapY: the vertical overlap of the side the ball came
from. -/
def minOverlapY (mBrick : Brick) (mBall : Ball) : ℚ :=
  if ballFromTop mBrick mBall then overlapTop mBrick mBall else overlapBottom mBrick mBall

/-- solveBrickBallCollision: early return unless intersecting.  On
intersection decrement requiredHits and mark the brick destroyed when
the counter reaches 0 or below; then set the velocity component of the
axis with the strictly smaller absolute selected overlap (ties take the
else branch: the vertical axis), with the sign given by the side the
ball came from on that axis. -/
def solveBrickBallCollision (mBrick : Brick) (mBall : Ball) : Brick × Ball :=
  if isIntersecting mBrick.extent mBall.extent then
    let hitBrick : Brick :=
      let b := { mBrick with requiredHits := mBrick.requiredHits - 1 }
      if b.requiredHits ≤ 0 then { b with destroyed := true } else b
    if |minOverlapX mBrick mBall| < |minOverlapY mBrick mBall| then
      (hitBrick,
       { mBall with velocity := { mBall.velocity with
           x := if ballFromLeft mBrick mBall then -Ball.defVelocity else Ball.defVelocity } })
    else
      (hitBrick,
       { mBall with velocity := { mBall.velocity with
           y := if ballFromTop mBrick mBall then -Ball.defVelocity else Ball.defVelocity } })
  else (mBrick, mBall)

/-- The entity Manager.  In the source the master list owns the
entities and the grouped map holds raw pointers into the same objects;
here a pointer is an id (Nat) and the shared destroyed flags form a
heap snapshot, a function from ids to Bool, passed to refresh. -/
structure Manager where
  entities : List ℕ
  groupedEntities : List (ℕ × List ℕ)
deriving DecidableEq

/-- Manager::refresh: erase-remove every entity whose destroyed flag is
set, first from each grouped vector, then from the master list.
The heap snapshot d gives the destroyed flag of each id. -/
def Manager.refresh (m : Manager) (d : ℕ → Bool) : Manager :=
  { groupedEntities := m.groupedEntities.map (fun pair => (pair.1, pair.2.filter (fun p => !(d p)))),
    entities := m.entities.filter (fun p => !(d p)) }

/-- The Game::State enumeration. -/
inductive State where
  | Paused
  | GameOver
  | InProgress
  | Victory
deriving DecidableEq

/-- Game::brkCountX. -/
def brkCountX : ℕ := 11

/-- Game::brkCountY. -/
def brkCountY : ℕ := 4

/-- Game::brkStartColumn. -/
def brkStartColumn : ℚ := 1

/-- Game::brkStartRow. -/
def brkStartRow : ℚ := 2

/-- Game::brkSpacing. -/
def brkSpacing : ℚ := 3

/-- Game::brkOffsetX. -/
def brkOffsetX : ℚ := 22

/-- The observable game state Game::restart rebuilds: remaining lives,
the state flag, and the per-type groups of the store in creation order. -/
structure GameState where
  remainingLives : ℤ
  state : State
  bricks : List Brick
  balls : List Ball
  paddles : List Paddle
deriving DecidableEq

/-- Game::restart: lives back to 3, state Paused, store cleared and
refilled with the brick grid (outer loop iX, inner loop iY; requiredHits
of the (iX, iY) brick is 1 + ((iX * iY) % 3)), one ball at the screen
center and one paddle 50 above the bottom edge. -/
def restart : GameState :=
  { remainingLives := 3,
    state := State.Paused,
    bricks := (List.range brkCountX).flatMap (fun (iX : ℕ) =>
      (List.range brkCountY).map (fun (iY : ℕ) =>
        let x : ℚ := ((iX : ℚ) + brkStartColumn) * (Brick.defWidth + brkSpacing)
        let y : ℚ := ((iY : ℚ) + brkStartRow) * (Brick.defHeight + brkSpacing)
        { mkBrick (brkOffsetX + x) y with requiredHits := 1 + (((iX : ℤ) * (iY : ℤ)) % 3) })),
    balls := [mkBall (gScreenW / 2) (gScreenH / 2)],
    paddles := [mkPaddle (gScreenW / 2) (gScreenH - 50)] }

/-! ### Helper lemmas -/

/-- The brick component of solveBrickBallCollision in closed form. -/
theorem solveBrickBallCollision_fst (mBrick : Brick) (mBall : Ball) :
    (solveBrickBallCollision mBrick mBall).1 =
      if isIntersecting mBrick.extent mBall.extent then
        if mBrick.requiredHits - 1 ≤ 0 then
          { mBrick with requiredHits := mBrick.requiredHits - 1, destroyed := true }
        else { mBrick with requiredHits := mBrick.requiredHits - 1 }
      else mBrick := by
  unfold solveBrickBallCollision
  split
  · dsimp only
    split <;> split <;> rfl
  · rfl

/-- The ball component of solveBrickBallCollision in closed form. -/
theorem solveBrickBallCollision_snd (mBrick : Brick) (mBall : Ball) :
    (solveBrickBallCollision mBrick mBall).2 =
      if isIntersecting mBrick.extent mBall.extent then
        if |minOverlapX mBrick mBall| < |minOverlapY mBrick mBall| then
          { mBall with velocity := { mBall.velocity with
              x := if ballFromLeft mBrick mBall then -Ball.defVelocity else Ball.defVelocity } }
        else
          { mBall with velocity := { mBall.velocity with
              y := if ballFromTop mBrick mBall then -Ball.defVelocity else Ball.defVelocity } }
      else mBall := by
  unfold solveBrickBallCollision
  split
  · dsimp only
    split <;> rfl
  · rfl

/-- The collision response does not move the brick. -/
theorem solveBrickBallCollision_fst_extent (mBrick : Brick) (mBall : Ball) :
    (solveBrickBallCollision mBrick mBall).1.extent = mBrick.extent := by
  rw [solveBrickBallCollision_fst]
  split <;> first | rfl | (split <;> rfl)

/-- The collision response does not move the ball. -/
theorem solveBrickBallCollision_snd_extent (mBrick : Brick) (mBall : Ball) :
    (solveBrickBallCollision mBrick mBall).2.extent = mBall.extent := by
  rw [solveBrickBallCollision_snd]
  split <;> first | rfl | (split <;> rfl)

/-! ### Claims -/

/-- Claim C2: for every intersecting brick-ball pair,
solveBrickBallCollision selects per axis the side with the smaller
absolute overlap (ballFromLeft / ballFromTop over the four overlap
magnitudes) and sets the velocity component of the axis whose selected
overlap has the strictly smaller absolute value to plus or minus the
fixed bounce speed, the sign given by which side was smaller on that
axis, leaving the other axis velocity component unchanged. -/
theorem solveBrickBallCollision_smaller_axis (mBrick : Brick) (mBall : Ball)
    (hI : isIntersecting mBrick.extent mBall.extent = true) :
    (|minOverlapX mBrick mBall| < |minOverlapY mBrick mBall| →
       (solveBrickBallCollision mBrick mBall).2.velocity.x =
         (if ballFromLeft mBrick mBall then -Ball.defVelocity else Ball.defVelocity) ∧
       (solveBrickBallCollision mBrick mBall).2.velocity.y = mBall.velocity.y) ∧
    (|minOverlapY mBrick mBall| < |minOverlapX mBrick mBall| →
       (solveBrickBallCollision mBrick mBall).2.velocity.y =
         (if ballFromTop mBrick mBall then -Ball.defVelocity else Ball.defVelocity) ∧
       (solveBrickBallCollision mBrick mBall).2.velocity.x = mBall.velocity.x) := by
  rw [solveBrickBallCollision_snd, if_pos hI]
  constructor
  · intro hlt
    rw [if_pos hlt]
    exact ⟨rfl, rfl⟩
  · intro hgt
    rw [if_neg (by exact not_lt.mpr hgt.le)]
    exact ⟨rfl, rfl⟩

/-- Claim C2 witness: a concrete side hit, the horizontal overlap is
the strictly smaller one. -/
theorem solveBrickBallCollision_smaller_axis_witness :
    (solveBrickBallCollision (mkBrick 100 100) (mkBall 65 100)).2.velocity.x =
      (if ballFromLeft (mkBrick 100 100) (mkBall 65 100) then -Ball.defVelocity
       else Ball.defVelocity) ∧
    (solveBrickBallCollision (mkBrick 100 100) (mkBall 65 100)).2.velocity.y =
      (mkBall 65 100).velocity.y :=
  (solveBrickBallCollision_smaller_axis (mkBrick 100 100) (mkBall 65 100) (by with_unfolding_all decide)).1
    (by with_unfolding_all decide)

/-- Claim C3 counterexample: brick centered at (100, 100) (extents 70
to 130 and 90 to 110), ball of radius 10 at (65, 100) with velocity
(8, 8).  The ball overlaps the brick more on the vertical axis (selected
vertical overlap 20) than on the horizontal axis (selected horizontal
overlap 5), yet the vertical velocity stays 8 (not flipped) and the
horizontal velocity changes from 8 to -8: the claim that only the
vertical component flips fails here. -/
theorem brick_vertical_overlap_dominant_cex :
    |minOverlapY (mkBrick 100 100) { mkBall 65 100 with velocity := ⟨8, 8⟩ }| >
      |minOverlapX (mkBrick 100 100) { mkBall 65 100 with velocity := ⟨8, 8⟩ }| ∧
    isIntersecting (mkBrick 100 100).extent
      ({ mkBall 65 100 with velocity := ⟨8, 8⟩ } : Ball).extent = true ∧
    (solveBrickBallCollision (mkBrick 100 100)
      { mkBall 65 100 with velocity := ⟨8, 8⟩ }).2.velocity.y = 8 ∧
    (solveBrickBallCollision (mkBrick 100 100)
      { mkBall 65 100 with velocity := ⟨8, 8⟩ }).2.velocity.x = -8 := by
  refine ⟨?_, ?_, ?_, ?_⟩ <;> with_unfolding_all decide

/-- Claim C3 (amended): for every intersecting brick-ball pair where
the ball overlaps the brick more on the vertical axis than on the
horizontal axis (the selected vertical overlap is larger in absolute
value), solveBrickBallCollision sets only the horizontal velocity
component (to plus or minus the bounce speed, sign from the smaller
horizontal side) and leaves the vertical velocity component
unchanged. -/
theorem solveBrickBallCollision_vertical_dominant (mBrick : Brick) (mBall : Ball)
    (hI : isIntersecting mBrick.extent mBall.extent = true)
    (hcmp : |minOverlapY mBrick mBall| > |minOverlapX mBrick mBall|) :
    (solveBrickBallCollision mBrick mBall).2.velocity.y = mBall.velocity.y ∧
    (solveBrickBallCollision mBrick mBall).2.velocity.x =
      (if ballFromLeft mBrick mBall then -Ball.defVelocity else Ball.defVelocity) := by
  rw [solveBrickBallCollision_snd, if_pos hI, if_pos hcmp]
  exact ⟨rfl, rfl⟩

/-- Claim C3 (amended) witness: the same side hit with the default
ball velocity. -/
theorem solveBrickBallCollision_vertical_dominant_witness :
    (solveBrickBallCollision (mkBrick 100 100) (mkBall 65 100)).2.velocity.y =
      (mkBall 65 100).velocity.y ∧
    (solveBrickBallCollision (mkBrick 100 100) (mkBall 65 100)).2.velocity.x =
      (if ballFromLeft (mkBrick 100 100) (mkBall 65 100) then -Ball.defVelocity
       else Ball.defVelocity) :=
  solveBrickBallCollision_vertical_dominant (mkBrick 100 100) (mkBall 65 100)
    (by with_unfolding_all decide) (by with_unfolding_all decide)

/-- Claim C10: for every intersecting brick-ball pair whose two
selected per-axis overlaps have exactly equal absolute values,
solveBrickBallCollision takes the vertical branch: it sets the vertical
velocity component (sign from the smaller vertical side) and leaves the
horizontal velocity component unchanged. -/
theorem solveBrickBallCollision_tie_vertical (mBrick : Brick) (mBall : Ball)
    (hI : isIntersecting mBrick.extent mBall.extent = true)
    (heq : |minOverlapX mBrick mBall| = |minOverlapY mBrick mBall|) :
    (solveBrickBallCollision mBrick mBall).2.velocity.y =
      (if ballFromTop mBrick mBall then -Ball.defVelocity else Ball.defVelocity) ∧
    (solveBrickBallCollision mBrick mBall).2.velocity.x = mBall.velocity.x := by
  rw [solveBrickBallCollision_snd, if_pos hI, if_neg (by rw [heq]; exact lt_irrefl _)]
  exact ⟨rfl, rfl⟩

/-- Claim C10 witness: a corner hit with equal selected overlaps (both
5 in absolute value). -/
theorem solveBrickBallCollision_tie_vertical_witness :
    (solveBrickBallCollision (mkBrick 100 100) (mkBall 65 85)).2.velocity.y =
      (if ballFromTop (mkBrick 100 100) (mkBall 65 85) then -Ball.defVelocity
       else Ball.defVelocity) ∧
    (solveBrickBallCollision (mkBrick 100 100) (mkBall 65 85)).2.velocity.x =
      (mkBall 65 85).velocity.x :=
  solveBrickBallCollision_tie_vertical (mkBrick 100 100) (mkBall 65 85)
    (by with_unfolding_all decide) (by with_unfolding_all decide)

/-- Claim C4: solveBrickBallCollision is a no-op unless the shapes
intersect; on intersection it decrements requiredHits by exactly one
and a live brick ends destroyed exactly when the decremented value is
at most 0; hence a brick with requiredHits 1 hit once by an
intersecting ball becomes destroyed, and a brick with requiredHits 3
hit twice remains alive with requiredHits 1. -/
theorem solveBrickBallCollision_requiredHits (mBrick : Brick) (mBall : Ball)
    (hd : mBrick.destroyed = false) :
    (isIntersecting mBrick.extent mBall.extent = false →
       solveBrickBallCollision mBrick mBall = (mBrick, mBall)) ∧
    (isIntersecting mBrick.extent mBall.extent = true →
       (solveBrickBallCollision mBrick mBall).1.requiredHits = mBrick.requiredHits - 1 ∧
       ((solveBrickBallCollision mBrick mBall).1.destroyed = true ↔
          mBrick.requiredHits - 1 ≤ 0)) ∧
    (isIntersecting mBrick.extent mBall.extent = true → mBrick.requiredHits = 1 →
       (solveBrickBallCollision mBrick mBall).1.destroyed = true) ∧
    (isIntersecting mBrick.extent mBall.extent = true → mBrick.requiredHits = 3 →
       (solveBrickBallCollision (solveBrickBallCollision mBrick mBall).1
          (solveBrickBallCollision mBrick mBall).2).1.destroyed = false ∧
       (solveBrickBallCollision (solveBrickBallCollision mBrick mBall).1
          (solveBrickBallCollision mBrick mBall).2).1.requiredHits = 1) := by
  refine ⟨?_, ?_, ?_, ?_⟩
  · intro h
    simp [solveBrickBallCollision, h]
  · intro h
    rw [solveBrickBallCollision_fst, if_pos h]
    by_cases hle : mBrick.requiredHits - 1 ≤ 0
    · rw [if_pos hle]
      exact ⟨rfl, by simp [hle]⟩
    · rw [if_neg hle]
      exact ⟨rfl, by simp [hd, hle]⟩
  · intro h h1
    rw [solveBrickBallCollision_fst, if_pos h, if_pos (by rw [h1]; decide)]
  · intro h h3
    have hfst : (solveBrickBallCollision mBrick mBall).1 =
        { mBrick with requiredHits := mBrick.requiredHits - 1 } := by
      rw [solveBrickBallCollision_fst, if_pos h, if_neg (by rw [h3]; decide)]
    rw [solveBrickBallCollision_fst, solveBrickBallCollision_fst_extent,
      solveBrickBallCollision_snd_extent, if_pos h, hfst]
    simp [h3, hd]

/-- Claim C4 witness: the default brick (requiredHits 1) at (100, 100)
destroyed by one corner hit, and the requiredHits 3 variant surviving
two hits with requiredHits 1 left. -/
theorem solveBrickBallCollision_requiredHits_witness :
    (solveBrickBallCollision (mkBrick 100 100) (mkBall 65 85)).1.destroyed = true ∧
    (solveBrickBallCollision
       (solveBrickBallCollision { mkBrick 100 100 with requiredHits := 3 } (mkBall 65 85)).1
       (solveBrickBallCollision { mkBrick 100 100 with requiredHits := 3 } (mkBall 65 85)).2).1.destroyed
      = false ∧
    (solveBrickBallCollision
       (solveBrickBallCollision { mkBrick 100 100 with requiredHits := 3 } (mkBall 65 85)).1
       (solveBrickBallCollision { mkBrick 100 100 with requiredHits := 3 } (mkBall 65 85)).2).1.requiredHits
      = 1 :=
  ⟨(solveBrickBallCollision_requiredHits (mkBrick 100 100) (mkBall 65 85)
      (by with_unfolding_all decide)).2.2.1
      (by with_unfolding_all decide) (by with_unfolding_all decide),
   ((solveBrickBallCollision_requiredHits { mkBrick 100 100 with requiredHits := 3 }
      (mkBall 65 85) (by with_unfolding_all decide)).2.2.2
      (by with_unfolding_all decide) (by with_unfolding_all decide)).1,
   ((solveBrickBallCollision_requiredHits { mkBrick 100 100 with requiredHits := 3 }
      (mkBall 65 85) (by with_unfolding_all decide)).2.2.2
      (by with_unfolding_all decide) (by with_unfolding_all decide)).2⟩

/-- Claim C5: solvePaddleBallCollision is a no-op unless the paddle and
ball intersect; on intersection it sets the vertical velocity to the
fixed upward speed -defVelocity and the horizontal velocity to
-defVelocity when the ball center is strictly left of the paddle
center and +defVelocity otherwise, so equal centers take the
+defVelocity branch. -/
theorem solvePaddleBallCollision_spec (mPaddle : Paddle) (mBall : Ball) :
    (isIntersecting mPaddle.extent mBall.extent = false →
       solvePaddleBallCollision mPaddle mBall = mBall) ∧
    (isIntersecting mPaddle.extent mBall.extent = true →
       (solvePaddleBallCollision mPaddle mBall).velocity.y = -Ball.defVelocity ∧
       (solvePaddleBallCollision mPaddle mBall).velocity.x =
         (if mBall.x < mPaddle.x then -Ball.defVelocity else Ball.defVelocity) ∧
       (mBall.x = mPaddle.x →
          (solvePaddleBallCollision mPaddle mBall).velocity.x = Ball.defVelocity)) := by
  constructor
  · intro h
    simp [solvePaddleBallCollision, h]
  · intro h
    refine ⟨?_, ?_, ?_⟩
    · simp [solvePaddleBallCollision, h]
    · simp [solvePaddleBallCollision, h]
    · intro hx
      simp [solvePaddleBallCollision, h, hx]

/-- Claim C5 witness: a ball left of the paddle center touching the
paddle; the response is up-left. -/
theorem solvePaddleBallCollision_spec_witness :
    (solvePaddleBallCollision (mkPaddle 400 550) (mkBall 360 540)).velocity.y =
      -Ball.defVelocity ∧
    (solvePaddleBallCollision (mkPaddle 400 550) (mkBall 360 540)).velocity.x =
      (if (mkBall 360 540).x < (mkPaddle 400 550).x then -Ball.defVelocity
       else Ball.defVelocity) :=
  ⟨((solvePaddleBallCollision_spec (mkPaddle 400 550) (mkBall 360 540)).2
      (by with_unfolding_all decide)).1,
   ((solvePaddleBallCollision_spec (mkPaddle 400 550) (mkBall 360 540)).2
      (by with_unfolding_all decide)).2.1⟩

/-- Claim C1 counterexample: the ball spawned at (400, 598) with the
default velocity (-8, -8) moves to (392, 590) during update, so its
bottom edge lands exactly on the world height 600 — and it is NOT
marked destroyed, against the claim that a ball whose update leaves it
exactly at the bottom boundary is destroyed (the code destroys only on
bottom strictly greater than the world height). -/
theorem ball_update_at_bottom_boundary_cex :
    ((mkBall 400 598).update).bottom = gScreenH ∧
    ((mkBall 400 598).update).destroyed = false := by
  refine ⟨?_, ?_⟩ <;> with_unfolding_all decide

/-- Claim C1 (amended): for a live ball that is not past the top edge,
the bound-collision check marks it destroyed exactly when its bottom
edge is strictly below the world height; so at bottom = worldHeight and
at bottom = worldHeight - 1 it is not marked destroyed. -/
theorem solveBoundCollisions_destroyed_iff (b : Ball)
    (hd : b.destroyed = false) (ht : 0 ≤ b.top) :
    ((b.solveBoundCollisions).destroyed = true ↔ b.bottom > gScreenH) := by
  unfold Ball.solveBoundCollisions
  dsimp only
  split_ifs with h1 h2 h3 h4 h5 h6 h7 h8 <;>
    simp_all [Ball.top, Ball.bottom, Ball.left, Ball.right] <;>
    linarith

/-- Claim C1 (amended) witness: a ball with bottom edge 601 is
destroyed by the bound check. -/
theorem solveBoundCollisions_destroyed_iff_witness :
    ((mkBall 400 591).solveBoundCollisions).destroyed = true :=
  (solveBoundCollisions_destroyed_iff (mkBall 400 591)
    (by with_unfolding_all decide) (by with_unfolding_all decide)).mpr
    (by with_unfolding_all decide)

/-- Claim C9: isIntersecting is symmetric on all pairs of shapes
(rectangles or circles), and its boundary comparisons are inclusive:
shapes whose extents merely touch (equal edges, here A.right = B.left)
count as intersecting. -/
theorem isIntersecting_symm_inclusive :
    (∀ A B : ShapeVal, isIntersecting A.extent B.extent = isIntersecting B.extent A.extent) ∧
    (∀ A B : ShapeVal, A.right = B.left → A.left ≤ B.right →
       A.bottom ≥ B.top → A.top ≤ B.bottom → isIntersecting A.extent B.extent = true) := by
  have key : ∀ X Y : Extent, isIntersecting X Y = true ↔
      (X.right ≥ Y.left ∧ X.left ≤ Y.right ∧ X.bottom ≥ Y.top ∧ X.top ≤ Y.bottom) := by
    intro X Y
    simp [isIntersecting, and_assoc]
  constructor
  · intro A B
    rw [Bool.eq_iff_iff, key, key]
    constructor
    · rintro ⟨h1, h2, h3, h4⟩
      exact ⟨h2, h1, h4, h3⟩
    · rintro ⟨h1, h2, h3, h4⟩
      exact ⟨h2, h1, h4, h3⟩
  · intro A B h1 h2 h3 h4
    rw [key]
    exact ⟨h1.ge, h2, h3, h4⟩

/-- Claim C9 witness: a rectangle and a circle that merely touch
(rect.right = circ.left = 5) intersect. -/
theorem isIntersecting_symm_inclusive_witness :
    isIntersecting (ShapeVal.rect 0 0 10 10).extent (ShapeVal.circ 8 0 3).extent = true :=
  isIntersecting_symm_inclusive.2 (ShapeVal.rect 0 0 10 10) (ShapeVal.circ 8 0 3)
    (by with_unfolding_all decide) (by with_unfolding_all decide)
    (by with_unfolding_all decide) (by with_unfolding_all decide)

/-- Claim C6: immediately after refresh, no entity whose destroyed flag
is set remains in the master entity list or in any grouped per-type
view. -/
theorem refresh_removes_destroyed (m : Manager) (d : ℕ → Bool) :
    ((m.refresh d).entities.all (fun p => !(d p)) = true) ∧
    ((m.refresh d).groupedEntities.all (fun pair => pair.2.all (fun p => !(d p))) = true) := by
  constructor
  · simp only [Manager.refresh, List.all_eq_true]
    intro p hp
    exact (List.mem_filter.mp hp).2
  · simp only [Manager.refresh, List.all_eq_true]
    intro pair hpair
    obtain ⟨q, hq, rfl⟩ := List.mem_map.mp hpair
    intro p hp
    exact (List.mem_filter.mp hp).2

/-- Claim C8: refresh is idempotent; with no intervening mutation of
the destroyed flags, a second refresh removes nothing: the master list
and every grouped view are unchanged. -/
theorem refresh_idempotent (m : Manager) (d : ℕ → Bool) :
    (m.refresh d).refresh d = m.refresh d := by
  cases m with
  | mk es gs =>
    unfold Manager.refresh
    dsimp only
    congr 1
    · rw [List.filter_filter]
      simp
    · rw [List.map_map]
      apply List.map_congr_left
      intro pair _
      show (pair.1, (pair.2.filter _).filter _) = (pair.1, pair.2.filter _)
      rw [List.filter_filter]
      simp

/-- Claim C7: after a fresh restart the store holds exactly
brkCountX * brkCountY = 44 bricks, exactly one ball at the world center
(width/2, height/2), exactly one paddle; remaining lives are 3; the
state is Paused; and the brick created at grid cell (iX, iY) has
requiredHits 1 + ((iX * iY) % 3), so the requiredHits of every brick lies in
the range 1 to 3. -/
theorem restart_initial_state :
    restart.bricks.length = brkCountX * brkCountY ∧
    brkCountX * brkCountY = 44 ∧
    restart.balls.map (fun b => (b.x, b.y)) = [(gScreenW / 2, gScreenH / 2)] ∧
    restart.paddles.length = 1 ∧
    restart.remainingLives = 3 ∧
    restart.state = State.Paused ∧
    ((List.range brkCountX).all fun iX => (List.range brkCountY).all fun iY =>
       decide ((restart.bricks.get? (iX * brkCountY + iY)).map Brick.requiredHits =
         some (1 + (((iX : ℤ) * (iY : ℤ)) % 3)))) = true ∧
    (restart.bricks.all fun k =>
       decide (1 ≤ k.requiredHits ∧ k.requiredHits ≤ 3)) = true := by
  refine ⟨?_, ?_, ?_, ?_, ?_, ?_, ?_, ?_⟩ <;> with_unfolding_all decide

end Arkanoid
